import Mathlib

/-!
Verification of the CryptoPro `cadesplugin` installation/handshake subsystem
(`cadesplugin_api.install.ts`, `cadesplugin_api.utils.ts`, `index.ts`).

The TypeScript source is shallowly embedded: pure functions become Lean
functions, the stateful settle-once promise discipline becomes explicit state
passing, the event-driven phases (echo wait) become step functions over event
lists, and synchronous `throw` becomes `Except.error`.  JavaScript numbers are
modelled as `JsNum` (finite values as integers, which is enough for the
timeout validation logic), and `unknown` thrown values as `JsErrorVal`.
-/

set_option autoImplicit false

namespace Cades

/-- The closed error taxonomy (`CadesPluginErrorCode` in
`cadesplugin_api.types.ts`). -/
inductive CadesPluginErrorCode where
  | UNKNOWN
  | INVALID_OPTIONS
  | PLUGIN_LOAD_TIMEOUT
  | EXTENSION_API_LOAD_FAILED
  | CSP_BLOCKED
  | EXTENSION_API_MISSING
  | HANDSHAKE_TIMEOUT
  | NATIVE_HOST_HANDSHAKE_FAILED
  | PLUGIN_OBJECT_MISSING
  deriving DecidableEq, Repr

/-- A recorded `securitypolicyviolation` event (`CspViolationInfo` in
`cadesplugin_api.install.ts`). -/
structure CspViolationInfo where
  blockedURI : String
  effectiveDirective : String
  violatedDirective : String
  deriving DecidableEq, Repr

/-- The keys actually placed in a `CadesPluginError`'s `details` bag at its
construction sites in `cadesplugin_api.install.ts` (the TS type is an open
`Record<string, unknown>`; only these keys are ever written). -/
structure ErrorDetails where
  timeoutMs : Option Int := none
  attemptedUrls : Option (List String) := none
  cspViolation : Option CspViolationInfo := none
  loadedUrl : Option String := none
  /-- For `INVALID_OPTIONS`: the offending option field echoed in details. -/
  offendingField : Option String := none
  /-- For the `UNKNOWN` wrap of a JS `Error`: `{ name: error.name }`. -/
  name : Option String := none
  deriving DecidableEq, Repr

/-- A thrown JavaScript value that is not a `CadesPluginError`: a JS `Error`
(with `name` and `message`), a plain string, or any other value (carried by
its `JSON.stringify` rendering, matching `getMessageFromException`). -/
inductive JsErrorVal where
  | jsError (name message : String)
  | strVal (s : String)
  | otherJson (json : String)
  deriving DecidableEq, Repr

/-- `CadesPluginError` (`cadesplugin_api.types.ts`): stable code, human
message, structured details, optional underlying cause.  In every modelled
flow the cause is a non-`CadesPluginError` value, hence `JsErrorVal`. -/
structure CadesPluginError where
  code : CadesPluginErrorCode
  message : String
  details : ErrorDetails := {}
  cause : Option JsErrorVal := none
  deriving DecidableEq, Repr

/-- Any value flowing through a `catch`/rejection path: either a
`CadesPluginError` or some other JS value. -/
inductive Thrown where
  | cades (e : CadesPluginError)
  | plain (v : JsErrorVal)
  deriving DecidableEq, Repr

/-- `getMessageFromException` (`cadesplugin_api.install.ts`): prefer a
`message` property, then a string value, then `JSON.stringify`.  A JS `null`
argument (`none` here) stringifies to `"null"`. -/
def getMessageFromException : Option Thrown → String
  | some (.cades e) => e.message
  | some (.plain (.jsError _ message)) => message
  | some (.plain (.strVal s)) => s
  | some (.plain (.otherJson json)) => json
  | none => "null"

/-- `normalizeErrorForUser` (`cadesplugin_api.install.ts`). -/
def normalizeErrorForUser (error : Option Thrown) : String :=
  let message := getMessageFromException error
  if message.isEmpty then "CryptoPro plugin is not available" else message

/-- The settlement state of the facade's `initPromise`: the `settled` flag
guarded by `resolveOnce`/`rejectOnce`, plus the outcome the promise was
settled with (if any). -/
inductive SettledAs where
  | resolvedOk
  | rejectedWith (reason : Thrown)
  deriving DecidableEq, Repr

structure SettleState where
  settled : Bool := false
  outcome : Option SettledAs := none
  deriving DecidableEq, Repr

/-- The fresh settle state created together with `initPromise`. -/
def initialSettleState : SettleState := {}

/-- `resolveOnce` (`cadesplugin_api.install.ts` lines 248-252). -/
def resolveOnce (st : SettleState) : SettleState :=
  if st.settled then st else { settled := true, outcome := some .resolvedOk }

/-- `rejectOnce` (`cadesplugin_api.install.ts` lines 254-258). -/
def rejectOnce (reason : Thrown) (st : SettleState) : SettleState :=
  if st.settled then st else { settled := true, outcome := some (.rejectedWith reason) }

/-- `settleError` (`cadesplugin_api.install.ts` lines 477-490): a
`CadesPluginError` is rejected as-is; a JS `Error` and any other value are
wrapped as `UNKNOWN`, preserving the original as the cause.  (The
`clearTimeout` side effect carries no modelled state.) -/
def settleError (error : Thrown) (st : SettleState) : SettleState :=
  match error with
  | .cades e => rejectOnce (.cades e) st
  | .plain (.jsError name message) =>
      rejectOnce
        (.cades
          { code := .UNKNOWN
            message := normalizeErrorForUser (some (.plain (.jsError name message)))
            details := { name := some name }
            cause := some (.jsError name message) })
        st
  | .plain v =>
      rejectOnce
        (.cades
          { code := .UNKNOWN
            message := normalizeErrorForUser (some (.plain v))
            cause := some v })
        st

/-- An attempt to settle the facade, from any of its sources (candidate loop,
echo wait, native-host callback, global timer). -/
inductive SettleEvent where
  | resolveEv
  | rejectEv (reason : Thrown)
  deriving Repr

def applySettle (st : SettleState) (ev : SettleEvent) : SettleState :=
  match ev with
  | .resolveEv => resolveOnce st
  | .rejectEv reason => rejectOnce reason st

/-- A sequence of settlement attempts applied in arrival order. -/
def runSettle (st : SettleState) (evs : List SettleEvent) : SettleState :=
  evs.foldl applySettle st

/-! ## Option validation (`installCadesPlugin`, synchronous part) -/

/-- A JavaScript number: `NaN`, the infinities, or a finite value.  Finite
values are modelled as integers, which covers the validation logic
(`Number.isFinite` and the comparison with zero). -/
inductive JsNum where
  | nan
  | posInf
  | negInf
  | fin (n : Int)
  deriving DecidableEq, Repr

/-- `toFinitePositiveMs` (`cadesplugin_api.install.ts` lines 145-149):
`null` unless the number is finite and strictly positive. -/
def toFinitePositiveMs (value : JsNum) : Option Int :=
  match value with
  | .fin n => if n ≤ 0 then none else some n
  | _ => none

/-- JavaScript `String.prototype.toLowerCase` on one character (ASCII
range, which covers extension ids). -/
def jsToLowerChar (c : Char) : Char :=
  if 'A' ≤ c && c ≤ 'Z' then Char.ofNat (c.toNat + 32) else c

/-- JavaScript `String.prototype.toLowerCase` (ASCII range). -/
def jsToLower (s : String) : String :=
  String.mk (s.data.map jsToLowerChar)

/-- JavaScript `String.prototype.trim`: strip leading and trailing
whitespace. -/
def jsTrim (s : String) : String :=
  String.mk (((s.data.dropWhile Char.isWhitespace).reverse.dropWhile Char.isWhitespace).reverse)

/-- Does the character list start with the pattern? -/
def charsStartWith : List Char → List Char → Bool
  | _, [] => true
  | [], _ :: _ => false
  | c :: cs, p :: ps => c == p && charsStartWith cs ps

/-- Does the pattern occur anywhere in the character list? -/
def charsContain (pat : List Char) : List Char → Bool
  | [] => pat.isEmpty
  | c :: cs => charsStartWith (c :: cs) pat || charsContain pat cs

/-- JavaScript `String.prototype.startsWith`, on the underlying character
lists. -/
def jsStartsWith (s pat : String) : Bool :=
  charsStartWith s.data pat.data

/-- JavaScript `String.prototype.includes`, on the underlying character
lists. -/
def containsSubstring (s pat : String) : Bool :=
  charsContain pat.data s.data

/-- The regular expression `/^[a-p]{32}$/i`, character-wise. -/
def isExtensionIdChar (c : Char) : Bool :=
  ('a' ≤ c && c ≤ 'p') || ('A' ≤ c && c ≤ 'P')

/-- The fixed extension-id shape: exactly 32 characters, all in `a..p`
(case-insensitive), i.e. `/^[a-p]{32}$/i`. -/
def isExtensionIdShape (s : String) : Bool :=
  s.length == 32 && s.data.all isExtensionIdChar

/-- `normalizeExtensionIds` (`cadesplugin_api.install.ts` lines 155-166):
trim, drop empties, drop entries not matching the id shape, lowercase the
rest.  (The `typeof raw !== 'string'` guard is subsumed by typing the input
as a list of strings.) -/
def normalizeExtensionIds : List String → List String
  | [] => []
  | raw :: rest =>
      let id := jsTrim raw
      if id.isEmpty then normalizeExtensionIds rest
      else if !isExtensionIdShape id then normalizeExtensionIds rest
      else jsToLower id :: normalizeExtensionIds rest

/-- `normalizeExtensionApiUrls` (`cadesplugin_api.install.ts` lines 168-178):
trim, drop empties, keep only `chrome-extension://` URLs. -/
def normalizeExtensionApiUrls : List String → List String
  | [] => []
  | raw :: rest =>
      let url := jsTrim raw
      if url.isEmpty then normalizeExtensionApiUrls rest
      else if !(jsStartsWith url "chrome-extension://") then normalizeExtensionApiUrls rest
      else url :: normalizeExtensionApiUrls rest

/-- `CadesPluginInstallOptions` (`cadesplugin_api.types.ts`).  The `logger`
callback is omitted: it carries no validated state (any non-function value
silently falls back to the default logger). -/
structure InstallOptions where
  timeoutMs : Option JsNum := none
  handshakeTimeoutMs : Option JsNum := none
  extensionApiUrls : Option (List String) := none
  extensionIds : Option (List String) := none
  logLevel : Option Nat := none
  deriving DecidableEq, Repr

/-- The shape probe on an already-published `window.cadesplugin`
(`cadesplugin_api.install.ts` lines 194-202): whether `then`,
`CreateObjectAsync` and `async_spawn` are functions on the existing value. -/
structure ExistingFacade where
  thenIsFunction : Bool
  createObjectAsyncIsFunction : Bool
  asyncSpawnIsFunction : Bool
  deriving DecidableEq, Repr

/-- The entry guard of `installCadesPlugin`: the existing `win.cadesplugin`
is reused iff it is present and exposes the three probed functions. -/
def usableExistingFacade : Option ExistingFacade → Option ExistingFacade
  | some f =>
      if f.thenIsFunction && f.createObjectAsyncIsFunction && f.asyncSpawnIsFunction
      then some f else none
  | none => none

/-- The validated configuration captured by `installCadesPlugin` before the
asynchronous `init` starts: `timeoutMsOpt`, `handshakeTimeoutMsOpt`,
`extensionApiUrlsOpt`, `extensionIdsOpt` (each `null` when the option was
absent) and the validated initial log level. -/
structure ValidatedConfig where
  timeoutMsOpt : Option Int := none
  handshakeTimeoutMsOpt : Option Int := none
  extensionApiUrlsOpt : Option (List String) := none
  extensionIdsOpt : Option (List String) := none
  initialLogLevel : Nat := 1
  deriving DecidableEq, Repr

/-- What the synchronous part of `installCadesPlugin` produces: either the
reused pre-existing facade, or a fresh installation whose asynchronous
negotiation (`init`) will run with the validated configuration. -/
inductive InstallOutcome where
  | reuseExisting (f : ExistingFacade)
  | freshInstall (cfg : ValidatedConfig)
  deriving DecidableEq, Repr

/-- Shorthand for the `INVALID_OPTIONS` errors thrown by
`installCadesPlugin`'s validation blocks. -/
def invalidOptions (message offendingField : String) : CadesPluginError :=
  { code := .INVALID_OPTIONS
    message := message
    details := { offendingField := some offendingField } }

/-- Validation of `opts.timeoutMs` (`cadesplugin_api.install.ts`
lines 207-212). -/
def validateTimeoutMs : Option JsNum → Except CadesPluginError (Option Int)
  | none => .ok none
  | some v =>
      match toFinitePositiveMs v with
      | some n => .ok (some n)
      | none => .error (invalidOptions "timeoutMs must be a finite positive number" "timeoutMs")

/-- Validation of `opts.handshakeTimeoutMs` (lines 214-220). -/
def validateHandshakeTimeoutMs : Option JsNum → Except CadesPluginError (Option Int)
  | none => .ok none
  | some v =>
      match toFinitePositiveMs v with
      | some n => .ok (some n)
      | none =>
          .error (invalidOptions "handshakeTimeoutMs must be a finite positive number"
            "handshakeTimeoutMs")

/-- Validation of `opts.extensionApiUrls` (lines 222-228): when the field is
present, the normalized list must be non-empty. -/
def validateExtensionApiUrls : Option (List String) → Except CadesPluginError (Option (List String))
  | none => .ok none
  | some raw =>
      let normalized := normalizeExtensionApiUrls raw
      if normalized.isEmpty then
        .error (invalidOptions "extensionApiUrls must include at least one chrome-extension:// URL"
          "extensionApiUrls")
      else .ok (some normalized)

/-- Validation of `opts.extensionIds` (lines 230-236): when the field is
present, the normalized list must be non-empty. -/
def validateExtensionIds : Option (List String) → Except CadesPluginError (Option (List String))
  | none => .ok none
  | some raw =>
      let normalized := normalizeExtensionIds raw
      if normalized.isEmpty then
        .error (invalidOptions "extensionIds must include at least one valid extension id"
          "extensionIds")
      else .ok (some normalized)

/-- Validation of `opts.logLevel` (lines 264-269): defaults to
`LOG_LEVEL_ERROR` (1) and must be one of 4 (debug), 2 (info), 1 (error). -/
def validateLogLevel : Option Nat → Except CadesPluginError Nat
  | none => .ok 1
  | some level =>
      if level == 4 || level == 2 || level == 1 then .ok level
      else .error (invalidOptions "logLevel must be 1 (error), 2 (info) or 4 (debug)" "logLevel")

/-- The synchronous part of `installCadesPlugin`
(`cadesplugin_api.install.ts` lines 189-269): reuse a usable existing
facade, otherwise validate each option field in source order.  An
`Except.error` is a synchronous `throw`; it happens before the promise is
created, before `win.cadesplugin` is published, and before `init` (and hence
any script injection) starts. -/
def installCadesPluginSync (existing : Option ExistingFacade) (opts : InstallOptions) :
    Except CadesPluginError InstallOutcome :=
  match usableExistingFacade existing with
  | some f => .ok (.reuseExisting f)
  | none => do
      let timeoutMsOpt ← validateTimeoutMs opts.timeoutMs
      let handshakeTimeoutMsOpt ← validateHandshakeTimeoutMs opts.handshakeTimeoutMs
      let extensionApiUrlsOpt ← validateExtensionApiUrls opts.extensionApiUrls
      let extensionIdsOpt ← validateExtensionIds opts.extensionIds
      let initialLogLevel ← validateLogLevel opts.logLevel
      return .freshInstall
        { timeoutMsOpt, handshakeTimeoutMsOpt, extensionApiUrlsOpt, extensionIdsOpt,
          initialLogLevel }

/-! ## Candidate URL derivation (`cadesplugin_api.utils.ts` and `init`) -/

/-- Browser family names recognized by `detectBrowser`
(`cadesplugin_api.utils.ts`). -/
inductive BrowserName where
  | Chrome
  | Edg
  | YaBrowser
  | Opera
  | Other
  deriving DecidableEq, Repr

/-- `BrowserSpec` (`cadesplugin_api.utils.ts`). -/
structure BrowserSpec where
  name : BrowserName
  major : Option Int
  deriving DecidableEq, Repr

/-- `CRYPTOPRO_EXTENSION_IDS` (`cadesplugin_api.utils.ts`). -/
def operaExtensionId : String := "epebfcehmdedogndhlcacafjaacknbcm"

def manifestV2ExtensionId : String := "iifchhfnnmpdbibifmljnfjhpififfog"

def manifestV3ExtensionId : String := "pfhgbfnnjiafkhfdkmpiflachepdcjod"

/-- `buildExtensionApiUrlFromId` (`cadesplugin_api.install.ts`
lines 151-153). -/
def buildExtensionApiUrlFromId (id : String) : String :=
  "chrome-extension://" ++ id ++ "/nmcades_plugin_api.js"

/-- `buildCryptoProExtensionApiUrls` (`cadesplugin_api.utils.ts`
lines 37-55): Opera/Yandex try the Opera-specific id first, then the store
ids; other browsers try the store ids (manifest V2, then V3). -/
def buildCryptoProExtensionApiUrls (browser : BrowserSpec) : List String :=
  if browser.name = .Opera ∨ browser.name = .YaBrowser then
    [ buildExtensionApiUrlFromId operaExtensionId,
      buildExtensionApiUrlFromId manifestV2ExtensionId,
      buildExtensionApiUrlFromId manifestV3ExtensionId ]
  else
    [ buildExtensionApiUrlFromId manifestV2ExtensionId,
      buildExtensionApiUrlFromId manifestV3ExtensionId ]

/-- The `urls` computation at the start of `init`
(`cadesplugin_api.install.ts` lines 497-500):
`extensionApiUrlsOpt ?? (extensionIdsOpt ? extensionIdsOpt.map(buildExtensionApiUrlFromId) : buildCryptoProExtensionApiUrls(browser))`. -/
def computeCandidateUrls (extensionApiUrlsOpt extensionIdsOpt : Option (List String))
    (browser : BrowserSpec) : List String :=
  match extensionApiUrlsOpt with
  | some urls => urls
  | none =>
      match extensionIdsOpt with
      | some ids => ids.map buildExtensionApiUrlFromId
      | none => buildCryptoProExtensionApiUrls browser

/-! ## Script loading and the candidate loop (`init`, lines 502-543) -/

/-- The rejection produced by `loadScript`'s `onerror` path
(`cadesplugin_api.install.ts` line 95). -/
def loadScriptError (src : String) : JsErrorVal :=
  .jsError "Error" ("Failed to load script: " ++ src)

/-- `loadScript` (`cadesplugin_api.install.ts` lines 70-100), with the
environment's load outcome for each URL supplied as the oracle `loadOk`
(whether the injected script element fires `onload` or `onerror`). -/
def loadScript (loadOk : String → Bool) (src : String) : Except JsErrorVal Unit :=
  if loadOk src then .ok () else .error (loadScriptError src)

/-- The mutable state of the candidate loop (`loadedUrl`, `lastLoadError`,
`lastCspViolation`), plus an explicit log of the URLs passed to `loadScript`
in order, to state which candidates were attempted. -/
structure CandidateLoopState where
  loadedUrl : Option String := none
  lastLoadError : Option JsErrorVal := none
  lastCspViolation : Option CspViolationInfo := none
  attempted : List String := []
  deriving DecidableEq, Repr

def initialLoopState : CandidateLoopState := {}

/-- The candidate loop (`cadesplugin_api.install.ts` lines 508-518): iterate
URLs in order; a successful load records `loadedUrl` and breaks; a failure
records the error and, when the CSP recorder correlates a violation to that
URL (`csp.findByBlockedUri(url) ?? lastCspViolation`), the violation.
`cspFind` is the recorder's lookup. -/
def runCandidateLoop (loadOk : String → Bool) (cspFind : String → Option CspViolationInfo) :
    List String → CandidateLoopState → CandidateLoopState
  | [], st => st
  | url :: rest, st =>
      let st1 : CandidateLoopState := { st with attempted := st.attempted ++ [url] }
      match loadScript loadOk url with
      | .ok _ => { st1 with loadedUrl := some url }
      | .error e =>
          runCandidateLoop loadOk cspFind rest
            { st1 with
              lastLoadError := some e
              lastCspViolation :=
                match cspFind url with
                | some v => some v
                | none => st1.lastCspViolation }

/-- The load-failure classification (`cadesplugin_api.install.ts`
lines 523-543): `CSP_BLOCKED` when a correlated violation was recorded, else
`EXTENSION_API_LOAD_FAILED`; details carry every attempted URL and the
violation, the cause is the last load error. -/
def classifyLoadFailure (urls : List String) (st : CandidateLoopState) : CadesPluginError :=
  let details := normalizeErrorForUser (st.lastLoadError.map .plain)
  let code : CadesPluginErrorCode :=
    if st.lastCspViolation.isSome then .CSP_BLOCKED else .EXTENSION_API_LOAD_FAILED
  let pre := if code = .CSP_BLOCKED then "CSP blocked. " else ""
  { code := code
    message := String.intercalate " "
      [ pre ++ "CryptoPro extension API script failed to load.",
        "Make sure the CryptoPro CAdES extension is installed and enabled.",
        "If your site uses strict CSP, it must allow the CryptoPro extension origins in script-src/script-src-elem.",
        "If your server applies CSP per-route, do a full page reload on the route where CryptoPro is enabled.",
        "Details: " ++ details ]
    details := { attemptedUrls := some urls, cspViolation := st.lastCspViolation }
    cause := st.lastLoadError }

/-- The load phase of `init` (`cadesplugin_api.install.ts` lines 502-543):
run the candidate loop from the fresh state; return the winning URL, or
throw the classified load failure when no candidate succeeded. -/
def initLoadPhase (loadOk : String → Bool) (cspFind : String → Option CspViolationInfo)
    (urls : List String) : Except CadesPluginError String :=
  let final := runCandidateLoop loadOk cspFind urls initialLoopState
  match final.loadedUrl with
  | some u => .ok u
  | none => .error (classifyLoadFailure urls final)

/-- The value `lastCspViolation` accumulates over a run of failing
candidates: the violation correlated to the latest failing URL that has one
(`csp.findByBlockedUri(url) ?? lastCspViolation`). -/
def lastViolation (cspFind : String → Option CspViolationInfo) (urls : List String)
    (init : Option CspViolationInfo) : Option CspViolationInfo :=
  urls.foldl
    (fun acc url =>
      match cspFind url with
      | some v => some v
      | none => acc)
    init

/-! ## The echo-wait phase (`waitForMessage` and `init`, lines 554-582) -/

/-- `isCadesPluginLoadedMessage` (`cadesplugin_api.utils.ts` lines 73-75):
the data is a string containing `"cadesplugin_loaded"`.  Non-string data is
`none`. -/
def isCadesPluginLoadedMessage (data : Option String) : Bool :=
  match data with
  | some s => containsSubstring s "cadesplugin_loaded"
  | none => false

/-- An inbound `message` event, as observed by the handshake listener:
whether `event.source === win`, the event's origin, and its (string or
non-string) data. -/
structure EchoMsg where
  sourceIsWin : Bool
  origin : String
  data : Option String
  deriving DecidableEq, Repr

/-- The echo predicate passed to `waitForMessage`
(`cadesplugin_api.install.ts` lines 568-571): same source, same origin
(skipped when `win.location.origin` is unavailable (`none`) or falsy, i.e.
empty), and the `cadesplugin_loaded` marker. -/
def echoPred (winOrigin : Option String) (m : EchoMsg) : Bool :=
  if !m.sourceIsWin then false
  else
    match winOrigin with
    | some o => if !o.isEmpty && m.origin != o then false else isCadesPluginLoadedMessage m.data
    | none => isCadesPluginLoadedMessage m.data

/-- The `HANDSHAKE_TIMEOUT` error thrown when `waitForMessage` rejects
(`cadesplugin_api.install.ts` lines 575-582); its cause is the timeout
rejection from `waitForMessage` itself (line 110). -/
def handshakeTimeoutError (handshakeTimeoutMs : Int) (loadedUrl : String) : CadesPluginError :=
  { code := .HANDSHAKE_TIMEOUT
    message := "Timed out waiting for CryptoPro extension handshake (cadesplugin_loaded)."
    details := { timeoutMs := some handshakeTimeoutMs, loadedUrl := some loadedUrl }
    cause := some (.jsError "Error" "Timed out waiting for CryptoPro extension handshake") }

/-- Where the echo wait stands: still waiting, resolved by a matching
message, or timed out. -/
inductive EchoPhase where
  | waiting
  | matched
  | timedOut
  deriving DecidableEq, Repr

/-- The observable state of the echo wait: whether the `message` listener
and the handshake timer are still registered (`waitForMessage`'s `cleanup`
removes both), the phase, and the facade's settle state. -/
structure EchoWaitState where
  listenerActive : Bool := true
  timerActive : Bool := true
  phase : EchoPhase := .waiting
  settle : SettleState := initialSettleState
  deriving DecidableEq, Repr

def initialEchoWaitState : EchoWaitState := {}

/-- An event delivered to the echo wait by the event loop: an inbound
message, or the handshake timer firing. -/
inductive EchoEvent where
  | message (m : EchoMsg)
  | timerFire
  deriving DecidableEq, Repr

/-- One event-loop step of the echo wait (`waitForMessage`,
`cadesplugin_api.install.ts` lines 102-131, composed with `init`'s
catch-and-settle of the timeout, lines 565-582).  A matching message with
the listener still registered cleans up and resolves the wait; a
non-matching message is ignored; a message after cleanup has no handler.
The timer firing (still registered) cleans up and rejects, which `init`
wraps as `HANDSHAKE_TIMEOUT` and settles via `settleError`. -/
def echoStep (winOrigin : Option String) (handshakeTimeoutMs : Int) (loadedUrl : String)
    (st : EchoWaitState) (ev : EchoEvent) : EchoWaitState :=
  match ev with
  | .message m =>
      if st.listenerActive then
        if echoPred winOrigin m then
          { st with listenerActive := false, timerActive := false, phase := .matched }
        else st
      else st
  | .timerFire =>
      if st.timerActive then
        { st with
          listenerActive := false
          timerActive := false
          phase := .timedOut
          settle := settleError (.cades (handshakeTimeoutError handshakeTimeoutMs loadedUrl)) st.settle }
      else st

/-- A sequence of event-loop deliveries to the echo wait, in arrival
order. -/
def runEchoWait (winOrigin : Option String) (handshakeTimeoutMs : Int) (loadedUrl : String)
    (st : EchoWaitState) (evs : List EchoEvent) : EchoWaitState :=
  evs.foldl (echoStep winOrigin handshakeTimeoutMs loadedUrl) st

/-! ## The native-host check phase (`init`, lines 584-610) -/

/-- An abstract JavaScript value returned by bridge entry points. -/
inductive JsValue where
  | undef
  | str (s : String)
  | obj (tag : String)
  deriving DecidableEq, Repr

/-- The plugin object published by the bridge through
`window.cadesplugin.set(...)` (`PluginObject` in
`cadesplugin_api.install.ts`): its `CreateObjectAsync` and `getLastError`
entry points, each possibly absent. -/
structure PluginObject where
  createObjectAsync : Option (String → JsValue) := none
  getLastErrorEntry : Option (Unit → String) := none

/-- The `PLUGIN_OBJECT_MISSING` error thrown at the end of `init`
(`cadesplugin_api.install.ts` lines 604-608). -/
def pluginObjectMissingInitError (loadedUrl : String) : CadesPluginError :=
  { code := .PLUGIN_OBJECT_MISSING
    message := "CryptoPro handshake completed, but plugin object is still missing."
    details := { loadedUrl := some loadedUrl } }

/-- The `NATIVE_HOST_HANDSHAKE_FAILED` wrap of a failed
`check_chrome_plugin` callback (`cadesplugin_api.install.ts`
lines 584-600). -/
def nativeHostFailedError (loadedUrl : String) (e : JsErrorVal) : CadesPluginError :=
  { code := .NATIVE_HOST_HANDSHAKE_FAILED
    message := String.intercalate " "
      [ "CryptoPro extension is present, but the native host handshake failed.",
        normalizeErrorForUser (some (.plain e)) ]
    details := { loadedUrl := some loadedUrl }
    cause := some e }

/-- The native-host check phase of `init` (`cadesplugin_api.install.ts`
lines 584-610): `check_chrome_plugin`'s outcome is `checkResult`; a failure
callback is wrapped as `NATIVE_HOST_HANDSHAKE_FAILED`; after a success
callback the plugin object published by the bridge (if any) must expose a
usable `CreateObjectAsync`, else `PLUGIN_OBJECT_MISSING` is thrown instead
of settling as success. -/
def nativeHostPhase (checkResult : Except JsErrorVal Unit) (pluginObject : Option PluginObject)
    (loadedUrl : String) : Except CadesPluginError Unit :=
  match checkResult with
  | .error e => .error (nativeHostFailedError loadedUrl e)
  | .ok _ =>
      match pluginObject with
      | some po =>
          match po.createObjectAsync with
          | some _ => .ok ()
          | none => .error (pluginObjectMissingInitError loadedUrl)
      | none => .error (pluginObjectMissingInitError loadedUrl)

/-! ## Exposed facade operations (`CreateObjectAsync`, `ReleasePluginObjects`) -/

/-- The `PLUGIN_OBJECT_MISSING` error thrown synchronously by the exposed
`CreateObjectAsync` (`cadesplugin_api.install.ts` lines 292-297). -/
def pluginObjectMissingCallError : CadesPluginError :=
  { code := .PLUGIN_OBJECT_MISSING
    message := "CryptoPro plugin is not ready (plugin object is missing)" }

/-- The exposed `CreateObjectAsync` (`cadesplugin_api.install.ts`
lines 292-297): consults the published plugin object at call time and throws
synchronously (`Except.error`) when it, or its `CreateObjectAsync` entry
point, is missing. -/
def CreateObjectAsync (pluginObject : Option PluginObject) (name : String) :
    Except CadesPluginError JsValue :=
  match pluginObject with
  | some po =>
      match po.createObjectAsync with
      | some create => .ok (create name)
      | none => .error pluginObjectMissingCallError
  | none => .error pluginObjectMissingCallError

/-- The `EXTENSION_API_MISSING` error thrown synchronously by the exposed
`ReleasePluginObjects` (`cadesplugin_api.install.ts` lines 411-420). -/
def extensionApiMissingCallError : CadesPluginError :=
  { code := .EXTENSION_API_MISSING
    message := "CryptoPro extension API is not available (cpcsp_chrome_nmcades missing)" }

/-- The `window.cpcsp_chrome_nmcades` bridge API (`ChromeNmcadesApi`): the
`check_chrome_plugin` entry point is modelled by its outcome elsewhere; here
only the optional `ReleasePluginObjects` entry point matters. -/
structure ChromeNmcadesApi where
  releasePluginObjects : Option (Unit → JsValue) := none

/-- The exposed `ReleasePluginObjects` (`cadesplugin_api.install.ts`
lines 411-420): throws synchronously when the bridge API or its release
entry point is absent, else delegates to it. -/
def ReleasePluginObjects (api : Option ChromeNmcadesApi) : Except CadesPluginError JsValue :=
  match api with
  | some a =>
      match a.releasePluginObjects with
      | some release => .ok (release ())
      | none => .error extensionApiMissingCallError
  | none => .error extensionApiMissingCallError

/-! ## The async call trampoline (`async_spawn`, lines 299-326) -/

/-- What `step` feeds back into the generator: `generator.next(val)` after
the awaited value resolved, or `generator.throw(err)` after it rejected. -/
inductive GenInput (ε α : Type) where
  | next (v : α)
  | thr (e : ε)

/-- The behavior of a driven generator, from a resumption point onward:
it finishes with a return value (`done`), raises an exception out of the
generator body (`raise`), or yields a value together with its response to
whatever is fed back in (`yield`). -/
inductive Gen (ε α τ : Type) where
  | done (t : τ)
  | raise (e : ε)
  | yield (v : α) (k : GenInput ε α → Gen ε α τ)

/-- The `step` driver of `async_spawn` (`cadesplugin_api.install.ts`
lines 307-323): a finished generator resolves with its return value; a
synchronous throw out of the generator body rejects immediately with no
further driving; a yielded value is awaited (`Promise.resolve(...).then`,
its settlement given by the oracle `settle`) and its outcome fed back, value
via `next` and error via `throw`. -/
def driveGen {ε α τ : Type} (settle : α → Except ε α) : Gen ε α τ → Except ε τ
  | .done t => .ok t
  | .raise e => .error e
  | .yield v k =>
      match settle v with
      | .ok a => driveGen settle (k (.next a))
      | .error e => driveGen settle (k (.thr e))

/-- `async_spawn` (`cadesplugin_api.install.ts` lines 299-326): the variadic
arguments are collapsed into the single list passed to `generatorFunc` (the
upstream calling convention), and the resulting generator is driven by
`step('next')`. -/
def async_spawn {ε α τ : Type} (generatorFunc : List JsValue → Gen ε α τ) (args : List JsValue)
    (settle : α → Except ε α) : Except ε τ :=
  driveGen settle (generatorFunc args)

/-- A generator continuation that does not handle a thrown-in rejection: the
exception propagates back out of the generator body (and a fed-back value is
returned as-is). -/
def unhandledK {ε α : Type} : GenInput ε α → Gen ε α α
  | .next v => .done v
  | .thr e => .raise e

/-! ## Theorems -/

theorem applySettle_of_settled (st : SettleState) (ev : SettleEvent) (h : st.settled = true) :
    applySettle st ev = st := by
  cases ev <;> simp [applySettle, resolveOnce, rejectOnce, h]

theorem settled_applySettle (st : SettleState) (ev : SettleEvent) :
    (applySettle st ev).settled = true := by
  cases ev <;> simp [applySettle, resolveOnce, rejectOnce] <;> split <;> simp_all

theorem runSettle_of_settled (st : SettleState) (evs : List SettleEvent) (h : st.settled = true) :
    runSettle st evs = st := by
  induction evs with
  | nil => rfl
  | cons ev rest ih =>
      show runSettle (applySettle st ev) rest = st
      rw [applySettle_of_settled st ev h]
      exact ih

/-- Claim C1: the facade's handshake state settles at most once.  Once the
settle state is settled, any further `resolveOnce`/`rejectOnce` attempt (from
any source) is a no-op; consequently, starting from the fresh state, the
first settlement attempt fixes the state against every later sequence of
attempts, so the facade never changes from resolved to rejected or vice
versa. -/
theorem settle_once_invariant (st : SettleState) (ev first : SettleEvent)
    (later : List SettleEvent) (h : st.settled = true) :
    applySettle st ev = st ∧
    runSettle (applySettle initialSettleState first) later = applySettle initialSettleState first :=
  ⟨applySettle_of_settled st ev h,
   runSettle_of_settled _ later (settled_applySettle initialSettleState first)⟩

/-- Witness for C1: a resolved state ignores a later rejection, and from the
fresh state a first resolution wins against a trailing rejection attempt. -/
theorem settle_once_invariant_witness :
    applySettle { settled := true, outcome := some .resolvedOk } (.rejectEv (.plain (.strVal "late")))
      = { settled := true, outcome := some .resolvedOk } ∧
    runSettle (applySettle initialSettleState .resolveEv) [.rejectEv (.plain (.strVal "late"))]
      = applySettle initialSettleState .resolveEv :=
  settle_once_invariant { settled := true, outcome := some .resolvedOk }
    (.rejectEv (.plain (.strVal "late"))) .resolveEv [.rejectEv (.plain (.strVal "late"))] rfl

/-- Claim C3: candidate URLs are derived with deterministic precedence.  A
supplied URL override is used verbatim, even when an identifier override is
also supplied (never merged); otherwise a supplied identifier override is
mapped to extension-scheme URLs; otherwise the browser-detection-driven
default ordering is used. -/
theorem candidate_url_precedence (urls ids : List String) (idsOpt : Option (List String))
    (browser : BrowserSpec) :
    computeCandidateUrls (some urls) idsOpt browser = urls ∧
    computeCandidateUrls none (some ids) browser = ids.map buildExtensionApiUrlFromId ∧
    computeCandidateUrls none none browser = buildCryptoProExtensionApiUrls browser :=
  ⟨rfl, rfl, rfl⟩

/-- Claim C10: `installCadesPlugin` is idempotent per window.  When the
window already holds a published facade exposing `then`, `CreateObjectAsync`
and `async_spawn` as functions, any later call returns that exact object
without validating the newly supplied options (however invalid) and without
reaching the fresh-install path that starts a negotiation or injects a
script. -/
theorem install_reuses_existing (f : ExistingFacade) (opts : InstallOptions)
    (h1 : f.thenIsFunction = true) (h2 : f.createObjectAsyncIsFunction = true)
    (h3 : f.asyncSpawnIsFunction = true) :
    installCadesPluginSync (some f) opts = .ok (.reuseExisting f) := by
  unfold installCadesPluginSync usableExistingFacade
  simp [h1, h2, h3]

/-- Witness for C10: a usable published facade is returned as-is even when
the later call's options are invalid (`NaN` timeout and an empty
identifier-override array). -/
theorem install_reuses_existing_witness :
    installCadesPluginSync (some ⟨true, true, true⟩)
        { timeoutMs := some .nan, extensionIds := some [] }
      = .ok (.reuseExisting ⟨true, true, true⟩) :=
  install_reuses_existing ⟨true, true, true⟩
    { timeoutMs := some .nan, extensionIds := some [] } rfl rfl rfl

theorem runCandidateLoop_cons_ok (loadOk : String → Bool) (cspFind : String → Option CspViolationInfo)
    (u : String) (rest : List String) (st : CandidateLoopState) (h : loadOk u = true) :
    runCandidateLoop loadOk cspFind (u :: rest) st
      = { st with attempted := st.attempted ++ [u], loadedUrl := some u } := by
  simp [runCandidateLoop, loadScript, h]

theorem runCandidateLoop_cons_fail (loadOk : String → Bool) (cspFind : String → Option CspViolationInfo)
    (u : String) (rest : List String) (st : CandidateLoopState) (h : loadOk u = false) :
    runCandidateLoop loadOk cspFind (u :: rest) st
      = runCandidateLoop loadOk cspFind rest
          { st with
            attempted := st.attempted ++ [u]
            lastLoadError := some (loadScriptError u)
            lastCspViolation :=
              match cspFind u with
              | some v => some v
              | none => st.lastCspViolation } := by
  simp [runCandidateLoop, loadScript, h]

theorem runCandidateLoop_all_fail (loadOk : String → Bool) (cspFind : String → Option CspViolationInfo)
    (urls : List String) (st : CandidateLoopState) (h : ∀ u ∈ urls, loadOk u = false) :
    runCandidateLoop loadOk cspFind urls st
      = { loadedUrl := st.loadedUrl
          lastLoadError := urls.foldl (fun _ u => some (loadScriptError u)) st.lastLoadError
          lastCspViolation := lastViolation cspFind urls st.lastCspViolation
          attempted := st.attempted ++ urls } := by
  induction urls generalizing st with
  | nil => simp [runCandidateLoop, lastViolation]
  | cons u rest ih =>
      rw [runCandidateLoop_cons_fail loadOk cspFind u rest st (h u (by simp))]
      rw [ih _ (fun x hx => h x (by simp [hx]))]
      simp [lastViolation]

theorem runCandidateLoop_append_fail (loadOk : String → Bool)
    (cspFind : String → Option CspViolationInfo) (pre rest : List String) (st : CandidateLoopState)
    (h : ∀ u ∈ pre, loadOk u = false) :
    runCandidateLoop loadOk cspFind (pre ++ rest) st
      = runCandidateLoop loadOk cspFind rest (runCandidateLoop loadOk cspFind pre st) := by
  induction pre generalizing st with
  | nil => rfl
  | cons u ps ih =>
      rw [List.cons_append,
        runCandidateLoop_cons_fail loadOk cspFind u (ps ++ rest) st (h u (by simp)),
        runCandidateLoop_cons_fail loadOk cspFind u ps st (h u (by simp))]
      exact ih _ (fun x hx => h x (by simp [hx]))

/-- Claim C4: the negotiator attempts candidates strictly sequentially in
list order.  With every URL before `u` failing to load and `u` loading
successfully, the loop attempts exactly the failing ones followed by `u` (no
later candidate is attempted), each failure is swallowed and recorded as the
last load error, and the load phase proceeds with `u` as the sole winning
URL. -/
theorem candidate_loop_first_success (loadOk : String → Bool)
    (cspFind : String → Option CspViolationInfo) (pre post : List String) (u : String)
    (hpre : ∀ x ∈ pre, loadOk x = false) (hu : loadOk u = true) :
    (runCandidateLoop loadOk cspFind (pre ++ u :: post) initialLoopState).loadedUrl = some u ∧
    (runCandidateLoop loadOk cspFind (pre ++ u :: post) initialLoopState).attempted = pre ++ [u] ∧
    (runCandidateLoop loadOk cspFind (pre ++ u :: post) initialLoopState).lastLoadError
      = pre.foldl (fun _ x => some (loadScriptError x)) none ∧
    initLoadPhase loadOk cspFind (pre ++ u :: post) = .ok u := by
  have hrun : runCandidateLoop loadOk cspFind (pre ++ u :: post) initialLoopState
      = { loadedUrl := some u
          lastLoadError := pre.foldl (fun _ x => some (loadScriptError x)) none
          lastCspViolation := lastViolation cspFind pre none
          attempted := pre ++ [u] } := by
    rw [runCandidateLoop_append_fail loadOk cspFind pre (u :: post) initialLoopState hpre,
      runCandidateLoop_all_fail loadOk cspFind pre initialLoopState hpre,
      runCandidateLoop_cons_ok loadOk cspFind u post _ hu]
    simp [initialLoopState]
  refine ⟨by rw [hrun], by rw [hrun], by rw [hrun], ?_⟩
  unfold initLoadPhase
  rw [hrun]

theorem lastViolation_isSome_iff (cspFind : String → Option CspViolationInfo) (urls : List String)
    (init : Option CspViolationInfo) :
    (lastViolation cspFind urls init).isSome
      ↔ (∃ u ∈ urls, (cspFind u).isSome) ∨ init.isSome := by
  induction urls generalizing init with
  | nil => simp [lastViolation]
  | cons u rest ih =>
      show (lastViolation cspFind rest
        (match cspFind u with | some v => some v | none => init)).isSome ↔ _
      cases hu : cspFind u with
      | some v => simp [ih, hu]
      | none => simp [ih, hu]

/-- Claim C5: when every candidate URL fails to load, the load phase throws
(and the facade, via `settleError`, rejects with) `CSP_BLOCKED` exactly when
a recorded CSP violation correlates to one of the attempted URLs, and
`EXTENSION_API_LOAD_FAILED` otherwise; the error's details carry every
attempted URL and the accumulated violation record. -/
theorem load_failure_classification (loadOk : String → Bool)
    (cspFind : String → Option CspViolationInfo) (urls : List String)
    (hfail : ∀ u ∈ urls, loadOk u = false) :
    (runCandidateLoop loadOk cspFind urls initialLoopState).loadedUrl = none ∧
    (runCandidateLoop loadOk cspFind urls initialLoopState).attempted = urls ∧
    initLoadPhase loadOk cspFind urls
      = .error (classifyLoadFailure urls (runCandidateLoop loadOk cspFind urls initialLoopState)) ∧
    (classifyLoadFailure urls (runCandidateLoop loadOk cspFind urls initialLoopState)).code
      = (if (lastViolation cspFind urls none).isSome then .CSP_BLOCKED
         else .EXTENSION_API_LOAD_FAILED) ∧
    ((lastViolation cspFind urls none).isSome ↔ ∃ u ∈ urls, (cspFind u).isSome) ∧
    (classifyLoadFailure urls (runCandidateLoop loadOk cspFind urls initialLoopState)).details.attemptedUrls
      = some urls ∧
    (classifyLoadFailure urls (runCandidateLoop loadOk cspFind urls initialLoopState)).details.cspViolation
      = lastViolation cspFind urls none ∧
    ∀ e, (settleError (.cades e) initialSettleState).outcome = some (.rejectedWith (.cades e)) := by
  have hrun : runCandidateLoop loadOk cspFind urls initialLoopState
      = { loadedUrl := none
          lastLoadError := urls.foldl (fun _ u => some (loadScriptError u)) none
          lastCspViolation := lastViolation cspFind urls none
          attempted := urls } := by
    rw [runCandidateLoop_all_fail loadOk cspFind urls initialLoopState hfail]
    simp [initialLoopState]
  rw [hrun]
  refine ⟨rfl, rfl, ?_, ?_, ?_, rfl, rfl, ?_⟩
  · unfold initLoadPhase
    rw [hrun]
  · simp [classifyLoadFailure]
  · simpa using lastViolation_isSome_iff cspFind urls none
  · intro e
    simp [settleError, rejectOnce, initialSettleState]

/-- Witness for C4: with candidates `["a", "b", "c", "d"]` where only `"c"`
loads, the loop attempts `"a"`, `"b"`, `"c"` in order, never attempts `"d"`,
records `"b"`'s failure as the last load error, and proceeds with `"c"`. -/
theorem candidate_loop_first_success_witness :
    (runCandidateLoop (fun u => u == "c") (fun _ => none) (["a", "b"] ++ "c" :: ["d"])
        initialLoopState).loadedUrl = some "c" ∧
    (runCandidateLoop (fun u => u == "c") (fun _ => none) (["a", "b"] ++ "c" :: ["d"])
        initialLoopState).attempted = ["a", "b"] ++ ["c"] ∧
    (runCandidateLoop (fun u => u == "c") (fun _ => none) (["a", "b"] ++ "c" :: ["d"])
        initialLoopState).lastLoadError
      = List.foldl (fun _ x => some (loadScriptError x)) none ["a", "b"] ∧
    initLoadPhase (fun u => u == "c") (fun _ => none) (["a", "b"] ++ "c" :: ["d"]) = .ok "c" :=
  candidate_loop_first_success (fun u => u == "c") (fun _ => none) ["a", "b"] ["d"] "c"
    (by decide) (by decide)

/-- Witness for C5: a single candidate that fails to load with a correlated
CSP violation yields a `CSP_BLOCKED` classification carrying the attempted
URL and the violation record, and the facade settles rejected with it. -/
theorem load_failure_classification_witness :
    (runCandidateLoop (fun _ => false)
        (fun u => if u == "u1" then some ⟨"u1", "script-src-elem", "script-src"⟩ else none)
        ["u1"] initialLoopState).loadedUrl = none ∧
    (runCandidateLoop (fun _ => false)
        (fun u => if u == "u1" then some ⟨"u1", "script-src-elem", "script-src"⟩ else none)
        ["u1"] initialLoopState).attempted = ["u1"] ∧
    initLoadPhase (fun _ => false)
        (fun u => if u == "u1" then some ⟨"u1", "script-src-elem", "script-src"⟩ else none) ["u1"]
      = .error (classifyLoadFailure ["u1"]
          (runCandidateLoop (fun _ => false)
            (fun u => if u == "u1" then some ⟨"u1", "script-src-elem", "script-src"⟩ else none)
            ["u1"] initialLoopState)) ∧
    (classifyLoadFailure ["u1"]
        (runCandidateLoop (fun _ => false)
          (fun u => if u == "u1" then some ⟨"u1", "script-src-elem", "script-src"⟩ else none)
          ["u1"] initialLoopState)).code
      = (if (lastViolation
              (fun u => if u == "u1" then some ⟨"u1", "script-src-elem", "script-src"⟩ else none)
              ["u1"] none).isSome then .CSP_BLOCKED else .EXTENSION_API_LOAD_FAILED) ∧
    ((lastViolation
        (fun u => if u == "u1" then some ⟨"u1", "script-src-elem", "script-src"⟩ else none)
        ["u1"] none).isSome ↔
      ∃ u ∈ ["u1"],
        ((fun u => if u == "u1" then some
          (⟨"u1", "script-src-elem", "script-src"⟩ : CspViolationInfo) else none) u).isSome) ∧
    (classifyLoadFailure ["u1"]
        (runCandidateLoop (fun _ => false)
          (fun u => if u == "u1" then some ⟨"u1", "script-src-elem", "script-src"⟩ else none)
          ["u1"] initialLoopState)).details.attemptedUrls = some ["u1"] ∧
    (classifyLoadFailure ["u1"]
        (runCandidateLoop (fun _ => false)
          (fun u => if u == "u1" then some ⟨"u1", "script-src-elem", "script-src"⟩ else none)
          ["u1"] initialLoopState)).details.cspViolation
      = lastViolation
          (fun u => if u == "u1" then some ⟨"u1", "script-src-elem", "script-src"⟩ else none)
          ["u1"] none ∧
    ∀ e, (settleError (.cades e) initialSettleState).outcome = some (.rejectedWith (.cades e)) :=
  load_failure_classification (fun _ => false)
    (fun u => if u == "u1" then some ⟨"u1", "script-src-elem", "script-src"⟩ else none)
    ["u1"] (by decide)

theorem echoStep_of_cleanedUp (winOrigin : Option String) (tms : Int) (loadedUrl : String)
    (st : EchoWaitState) (ev : EchoEvent) (h1 : st.listenerActive = false)
    (h2 : st.timerActive = false) :
    echoStep winOrigin tms loadedUrl st ev = st := by
  cases ev <;> simp [echoStep, h1, h2]

theorem runEchoWait_of_cleanedUp (winOrigin : Option String) (tms : Int) (loadedUrl : String)
    (st : EchoWaitState) (evs : List EchoEvent) (h1 : st.listenerActive = false)
    (h2 : st.timerActive = false) :
    runEchoWait winOrigin tms loadedUrl st evs = st := by
  induction evs with
  | nil => rfl
  | cons ev rest ih =>
      show runEchoWait winOrigin tms loadedUrl (echoStep winOrigin tms loadedUrl st ev) rest = st
      rw [echoStep_of_cleanedUp winOrigin tms loadedUrl st ev h1 h2]
      exact ih

theorem runEchoWait_nonmatching (winOrigin : Option String) (tms : Int) (loadedUrl : String)
    (pre : List EchoMsg) (st : EchoWaitState)
    (hpre : ∀ m ∈ pre, echoPred winOrigin m = false) :
    runEchoWait winOrigin tms loadedUrl st (pre.map .message) = st := by
  induction pre generalizing st with
  | nil => rfl
  | cons m rest ih =>
      show runEchoWait winOrigin tms loadedUrl
        (echoStep winOrigin tms loadedUrl st (.message m)) (rest.map .message) = st
      have hm : echoStep winOrigin tms loadedUrl st (.message m) = st := by
        simp [echoStep, hpre m (by simp)]
      rw [hm]
      exact ih _ (fun x hx => hpre x (by simp [hx]))

/-- Claim C6: if no matching echo reply (same source, same origin, carrying
the `cadesplugin_loaded` marker) arrives before the handshake timer fires,
the facade rejects with `HANDSHAKE_TIMEOUT`; and any events delivered after
the timeout — including a matching message — leave the whole echo-wait
state, in particular the already-rejected settlement, unchanged. -/
theorem echo_timeout_rejects (winOrigin : Option String) (tms : Int) (loadedUrl : String)
    (pre : List EchoMsg) (post : List EchoEvent)
    (hpre : ∀ m ∈ pre, echoPred winOrigin m = false) :
    (runEchoWait winOrigin tms loadedUrl initialEchoWaitState
        (pre.map .message ++ [.timerFire])).settle.outcome
      = some (.rejectedWith (.cades (handshakeTimeoutError tms loadedUrl))) ∧
    (runEchoWait winOrigin tms loadedUrl initialEchoWaitState
        (pre.map .message ++ [.timerFire])).phase = .timedOut ∧
    runEchoWait winOrigin tms loadedUrl initialEchoWaitState
        (pre.map .message ++ .timerFire :: post)
      = runEchoWait winOrigin tms loadedUrl initialEchoWaitState
          (pre.map .message ++ [.timerFire]) := by
  have happ : ∀ evs : List EchoEvent,
      runEchoWait winOrigin tms loadedUrl initialEchoWaitState (pre.map .message ++ evs)
        = runEchoWait winOrigin tms loadedUrl initialEchoWaitState evs := by
    intro evs
    show List.foldl _ _ _ = _
    rw [List.foldl_append]
    rw [show List.foldl (echoStep winOrigin tms loadedUrl) initialEchoWaitState (pre.map .message)
      = initialEchoWaitState from runEchoWait_nonmatching winOrigin tms loadedUrl pre _ hpre]
    rfl
  have hT : runEchoWait winOrigin tms loadedUrl initialEchoWaitState [.timerFire]
      = { listenerActive := false
          timerActive := false
          phase := .timedOut
          settle := settleError (.cades (handshakeTimeoutError tms loadedUrl))
            initialSettleState } := by
    simp [runEchoWait, echoStep, initialEchoWaitState]
  refine ⟨?_, ?_, ?_⟩
  · rw [happ, hT]
    simp [settleError, rejectOnce, initialSettleState]
  · rw [happ, hT]
  · rw [happ, happ]
    show runEchoWait winOrigin tms loadedUrl initialEchoWaitState ([.timerFire] ++ post) = _
    rw [show runEchoWait winOrigin tms loadedUrl initialEchoWaitState ([.timerFire] ++ post)
        = runEchoWait winOrigin tms loadedUrl
            (runEchoWait winOrigin tms loadedUrl initialEchoWaitState [.timerFire]) post from
      List.foldl_append _ _ _ _]
    rw [hT]
    exact runEchoWait_of_cleanedUp winOrigin tms loadedUrl _ post rfl rfl

/-- Witness for C6: a non-matching message, then the timer, then a matching
`cadesplugin_loaded` message: the facade is rejected with
`HANDSHAKE_TIMEOUT` at the timer and the late matching message changes
nothing. -/
theorem echo_timeout_rejects_witness :
    (runEchoWait (some "https://app.example") 5000 "u" initialEchoWaitState
        ([⟨true, "https://app.example", some "hello"⟩].map .message
          ++ [.timerFire])).settle.outcome
      = some (.rejectedWith (.cades (handshakeTimeoutError 5000 "u"))) ∧
    (runEchoWait (some "https://app.example") 5000 "u" initialEchoWaitState
        ([⟨true, "https://app.example", some "hello"⟩].map .message
          ++ [.timerFire])).phase = .timedOut ∧
    runEchoWait (some "https://app.example") 5000 "u" initialEchoWaitState
        ([⟨true, "https://app.example", some "hello"⟩].map .message
          ++ .timerFire :: [.message ⟨true, "https://app.example", some "cadesplugin_loaded"⟩])
      = runEchoWait (some "https://app.example") 5000 "u" initialEchoWaitState
          ([⟨true, "https://app.example", some "hello"⟩].map .message ++ [.timerFire]) :=
  echo_timeout_rejects (some "https://app.example") 5000 "u"
    [⟨true, "https://app.example", some "hello"⟩]
    [.message ⟨true, "https://app.example", some "cadesplugin_loaded"⟩]
    (by decide)

/-- Claim C7: when the native-host check invokes its success callback but no
plugin object with a usable `CreateObjectAsync` entry point has been
published to the facade, the negotiation throws `PLUGIN_OBJECT_MISSING`
instead of settling as success. -/
theorem native_success_without_object (loadedUrl : String) (pluginObject : Option PluginObject)
    (h : (pluginObject.bind fun po => po.createObjectAsync).isNone = true) :
    nativeHostPhase (.ok ()) pluginObject loadedUrl
      = .error (pluginObjectMissingInitError loadedUrl) ∧
    (pluginObjectMissingInitError loadedUrl).code = .PLUGIN_OBJECT_MISSING := by
  cases pluginObject with
  | none => exact ⟨rfl, rfl⟩
  | some po =>
      cases hc : po.createObjectAsync with
      | none => exact ⟨by simp [nativeHostPhase, hc], rfl⟩
      | some create => simp [Option.bind, hc] at h

/-- Witness for C7: a published plugin object with no `CreateObjectAsync`
entry point makes the success callback end in `PLUGIN_OBJECT_MISSING`. -/
theorem native_success_without_object_witness :
    nativeHostPhase (.ok ()) (some { createObjectAsync := none, getLastErrorEntry := none })
        "chrome-extension://iifchhfnnmpdbibifmljnfjhpififfog/nmcades_plugin_api.js"
      = .error (pluginObjectMissingInitError
          "chrome-extension://iifchhfnnmpdbibifmljnfjhpififfog/nmcades_plugin_api.js") ∧
    (pluginObjectMissingInitError
        "chrome-extension://iifchhfnnmpdbibifmljnfjhpififfog/nmcades_plugin_api.js").code
      = .PLUGIN_OBJECT_MISSING :=
  native_success_without_object
    "chrome-extension://iifchhfnnmpdbibifmljnfjhpififfog/nmcades_plugin_api.js"
    (some { createObjectAsync := none, getLastErrorEntry := none }) rfl

/-- Counterexample for C8: the claim says only `INVALID_OPTIONS` is ever
delivered by a synchronous throw, and in particular that
`PLUGIN_OBJECT_MISSING` and `EXTENSION_API_MISSING` are delivered solely by
rejecting the facade's settlement.  But the exposed `CreateObjectAsync`,
called before the plugin object exists, throws `PLUGIN_OBJECT_MISSING`
synchronously, and the exposed `ReleasePluginObjects`, called with the
bridge API absent, throws `EXTENSION_API_MISSING` synchronously. -/
theorem sync_throw_counterexample :
    CreateObjectAsync none "CAdESCOM.CadesSignedData" = .error pluginObjectMissingCallError ∧
    pluginObjectMissingCallError.code = .PLUGIN_OBJECT_MISSING ∧
    CadesPluginErrorCode.PLUGIN_OBJECT_MISSING ≠ CadesPluginErrorCode.INVALID_OPTIONS ∧
    ReleasePluginObjects none = .error extensionApiMissingCallError ∧
    extensionApiMissingCallError.code = .EXTENSION_API_MISSING ∧
    CadesPluginErrorCode.EXTENSION_API_MISSING ≠ CadesPluginErrorCode.INVALID_OPTIONS :=
  ⟨rfl, rfl, by decide, rfl, rfl, by decide⟩

theorem validateTimeoutMs_error_code (v : Option JsNum) (e : CadesPluginError)
    (h : validateTimeoutMs v = .error e) : e.code = .INVALID_OPTIONS := by
  unfold validateTimeoutMs at h
  split at h
  · simp at h
  · split at h
    · simp at h
    · injection h with h'
      subst h'
      rfl

theorem validateHandshakeTimeoutMs_error_code (v : Option JsNum) (e : CadesPluginError)
    (h : validateHandshakeTimeoutMs v = .error e) : e.code = .INVALID_OPTIONS := by
  unfold validateHandshakeTimeoutMs at h
  split at h
  · simp at h
  · split at h
    · simp at h
    · injection h with h'
      subst h'
      rfl

theorem validateExtensionApiUrls_error_code (v : Option (List String)) (e : CadesPluginError)
    (h : validateExtensionApiUrls v = .error e) : e.code = .INVALID_OPTIONS := by
  unfold validateExtensionApiUrls at h
  split at h
  · simp at h
  · dsimp only at h
    split at h
    · injection h with h'
      subst h'
      rfl
    · simp at h

theorem validateExtensionIds_error_code (v : Option (List String)) (e : CadesPluginError)
    (h : validateExtensionIds v = .error e) : e.code = .INVALID_OPTIONS := by
  unfold validateExtensionIds at h
  split at h
  · simp at h
  · dsimp only at h
    split at h
    · injection h with h'
      subst h'
      rfl
    · simp at h

theorem validateLogLevel_error_code (v : Option Nat) (e : CadesPluginError)
    (h : validateLogLevel v = .error e) : e.code = .INVALID_OPTIONS := by
  unfold validateLogLevel at h
  split at h
  · simp at h
  · split at h
    · simp at h
    · injection h with h'
      subst h'
      rfl

/-- Claim C8, amended: `INVALID_OPTIONS` is the only code `installCadesPlugin`
itself throws synchronously (negotiation failures are delivered by rejecting
the facade's settlement); however, two exposed operations do throw other
codes synchronously — `CreateObjectAsync` throws only
`PLUGIN_OBJECT_MISSING`, and `ReleasePluginObjects` throws only
`EXTENSION_API_MISSING`. -/
theorem sync_throw_codes_amended :
    (∀ (existing : Option ExistingFacade) (opts : InstallOptions) (e : CadesPluginError),
      installCadesPluginSync existing opts = .error e → e.code = .INVALID_OPTIONS) ∧
    (∀ (pluginObject : Option PluginObject) (name : String) (e : CadesPluginError),
      CreateObjectAsync pluginObject name = .error e → e.code = .PLUGIN_OBJECT_MISSING) ∧
    (∀ (api : Option ChromeNmcadesApi) (e : CadesPluginError),
      ReleasePluginObjects api = .error e → e.code = .EXTENSION_API_MISSING) := by
  refine ⟨?_, ?_, ?_⟩
  · intro existing opts e h
    unfold installCadesPluginSync at h
    cases husable : usableExistingFacade existing <;> rw [husable] at h
    · simp only [Bind.bind, Except.bind] at h
      cases h1 : validateTimeoutMs opts.timeoutMs <;> rw [h1] at h
      case error e1 =>
        cases h
        exact validateTimeoutMs_error_code _ _ h1
      cases h2 : validateHandshakeTimeoutMs opts.handshakeTimeoutMs <;> rw [h2] at h
      case error e2 =>
        cases h
        exact validateHandshakeTimeoutMs_error_code _ _ h2
      cases h3 : validateExtensionApiUrls opts.extensionApiUrls <;> rw [h3] at h
      case error e3 =>
        cases h
        exact validateExtensionApiUrls_error_code _ _ h3
      cases h4 : validateExtensionIds opts.extensionIds <;> rw [h4] at h
      case error e4 =>
        cases h
        exact validateExtensionIds_error_code _ _ h4
      cases h5 : validateLogLevel opts.logLevel <;> rw [h5] at h
      case error e5 =>
        cases h
        exact validateLogLevel_error_code _ _ h5
      cases h
    · cases h
  · intro pluginObject name e h
    unfold CreateObjectAsync at h
    split at h
    · split at h
      · simp at h
      · injection h with h'
        subst h'
        rfl
    · injection h with h'
      subst h'
      rfl
  · intro api e h
    unfold ReleasePluginObjects at h
    split at h
    · split at h
      · simp at h
      · injection h with h'
        subst h'
        rfl
    · injection h with h'
      subst h'
      rfl

/-- Witness for C8 (amended): each of the three synchronous-throw sites
evaluated at a concrete input yields its single code. -/
theorem sync_throw_codes_amended_witness :
    (invalidOptions "timeoutMs must be a finite positive number" "timeoutMs").code
      = .INVALID_OPTIONS ∧
    pluginObjectMissingCallError.code = .PLUGIN_OBJECT_MISSING ∧
    extensionApiMissingCallError.code = .EXTENSION_API_MISSING :=
  ⟨sync_throw_codes_amended.1 none { timeoutMs := some (.fin 0) } _ rfl,
   sync_throw_codes_amended.2.1 none "CAdESCOM.CPSigner" _ rfl,
   sync_throw_codes_amended.2.2 none _ rfl⟩

/-- Claim C9: the async call trampoline drives a generator-based computation
faithfully.  A finished generator's return value becomes the resolution; a
value the generator throws synchronously becomes the rejection with no
further driving; a yielded awaitable's outcome is fed back in (value via
`next`, error via `throw`); and a rejection the generator does not handle
becomes the returned promise's rejection, with exactly one outcome by
construction. -/
theorem async_spawn_trampoline {ε α τ : Type} (settle : α → Except ε α) (args : List JsValue)
    (t : τ) (e : ε) (a v : α) (k : GenInput ε α → Gen ε α τ) :
    async_spawn (fun _ => .done t) args settle = .ok t ∧
    async_spawn (fun _ => (.raise e : Gen ε α τ)) args settle = .error e ∧
    (settle v = .ok a →
      async_spawn (fun _ => .yield v k) args settle = driveGen settle (k (.next a))) ∧
    (settle v = .error e →
      async_spawn (fun _ => .yield v k) args settle = driveGen settle (k (.thr e))) ∧
    (settle v = .error e →
      async_spawn (fun _ => .yield v unhandledK) args settle = .error e) :=
  ⟨rfl, rfl,
   fun h => by simp [async_spawn, driveGen, h],
   fun h => by simp [async_spawn, driveGen, h],
   fun h => by simp [async_spawn, driveGen, h, unhandledK]⟩

/-- Witness for C9: with an awaitable oracle that rejects `0` with `"boom"`
and resolves everything else to itself, the five trampoline behaviors hold
at concrete generators built from the pass-through continuation. -/
theorem async_spawn_trampoline_witness :
    async_spawn (fun _ => (Gen.done 7 : Gen String Nat Nat)) []
        (fun n => if n == 0 then Except.error "boom" else Except.ok n) = .ok 7 ∧
    async_spawn (fun _ => (Gen.raise "boom" : Gen String Nat Nat)) []
        (fun n => if n == 0 then Except.error "boom" else Except.ok n) = .error "boom" ∧
    async_spawn (fun _ => Gen.yield 1 unhandledK) []
        (fun n => if n == 0 then Except.error "boom" else Except.ok n)
      = driveGen (fun n => if n == 0 then Except.error "boom" else Except.ok n)
          (unhandledK (GenInput.next 1)) ∧
    async_spawn (fun _ => Gen.yield 0 unhandledK) []
        (fun n => if n == 0 then Except.error "boom" else Except.ok n)
      = driveGen (fun n => if n == 0 then Except.error "boom" else Except.ok n)
          (unhandledK (GenInput.thr "boom")) ∧
    async_spawn (fun _ => Gen.yield 0 unhandledK) []
        (fun n => if n == 0 then Except.error "boom" else Except.ok n) = .error "boom" := by
  refine ⟨?_, ?_, ?_, ?_, ?_⟩
  · exact (async_spawn_trampoline (fun n => if n == 0 then Except.error "boom" else Except.ok n)
      [] 7 "boom" 1 1 unhandledK).1
  · exact (async_spawn_trampoline (fun n => if n == 0 then Except.error "boom" else Except.ok n)
      [] 7 "boom" 1 1 unhandledK).2.1
  · exact (async_spawn_trampoline (fun n => if n == 0 then Except.error "boom" else Except.ok n)
      [] 7 "boom" 1 1 unhandledK).2.2.1 rfl
  · exact (async_spawn_trampoline (fun n => if n == 0 then Except.error "boom" else Except.ok n)
      [] 7 "boom" 1 0 unhandledK).2.2.2.1 rfl
  · exact (async_spawn_trampoline (fun n => if n == 0 then Except.error "boom" else Except.ok n)
      [] 7 "boom" 1 0 unhandledK).2.2.2.2 rfl

/-- Counterexample for C2: the claim requires every supplied identifier to
match the fixed extension-id shape when the field is present, else a
synchronous `INVALID_OPTIONS` failure.  But with one malformed and one
well-formed identifier supplied, the malformed one is silently dropped and
installation proceeds (no `INVALID_OPTIONS`), using only the surviving
normalized id. -/
theorem extensionIds_validation_counterexample :
    isExtensionIdShape "not-an-id" = false ∧
    installCadesPluginSync none
        { extensionIds := some ["not-an-id", "IIFCHHFNNMPDBIBIFMLJNFJHPIFIFFOG"] }
      = .ok (.freshInstall { extensionIdsOpt := some ["iifchhfnnmpdbibifmljnfjhpififfog"] }) := by
  exact ⟨by decide, rfl⟩

/-- Claim C2, amended: if the identifier-override field is present,
installation fails synchronously with `INVALID_OPTIONS` (before any script
is injected) exactly when no supplied identifier survives normalization —
identifiers not matching the fixed extension-id shape are silently dropped
rather than rejected; in particular, an empty identifier-override array
fails this way. -/
theorem extensionIds_validation_amended (ids : List String) :
    (normalizeExtensionIds ids = [] →
      installCadesPluginSync none { extensionIds := some ids }
        = .error (invalidOptions "extensionIds must include at least one valid extension id"
            "extensionIds")) ∧
    (normalizeExtensionIds ids ≠ [] →
      installCadesPluginSync none { extensionIds := some ids }
        = .ok (.freshInstall { extensionIdsOpt := some (normalizeExtensionIds ids) })) := by
  constructor
  · intro hemp
    simp [installCadesPluginSync, usableExistingFacade, validateTimeoutMs,
      validateHandshakeTimeoutMs, validateExtensionApiUrls, validateExtensionIds,
      validateLogLevel, hemp, Bind.bind, Except.bind, pure, Except.pure]
  · intro hne
    simp [installCadesPluginSync, usableExistingFacade, validateTimeoutMs,
      validateHandshakeTimeoutMs, validateExtensionApiUrls, validateExtensionIds,
      validateLogLevel, hne, Bind.bind, Except.bind, pure, Except.pure]

/-- Witness for C2 (amended): an empty identifier-override array fails
synchronously with `INVALID_OPTIONS`, while an all-uppercase well-formed id
survives normalization and installation proceeds with its lowercase form. -/
theorem extensionIds_validation_amended_witness :
    installCadesPluginSync none { extensionIds := some ([] : List String) }
      = .error (invalidOptions "extensionIds must include at least one valid extension id"
          "extensionIds") ∧
    installCadesPluginSync none { extensionIds := some ["IIFCHHFNNMPDBIBIFMLJNFJHPIFIFFOG"] }
      = .ok (.freshInstall { extensionIdsOpt := some ["iifchhfnnmpdbibifmljnfjhpififfog"] }) :=
  ⟨(extensionIds_validation_amended []).1 rfl,
   (extensionIds_validation_amended ["IIFCHHFNNMPDBIBIFMLJNFJHPIFIFFOG"]).2 (by decide)⟩

end Cades
